import Mathlib

/-!
Verification of the acquisition and supervision engine of the FlatAirCooler
repository (`backend.py`).  The Python code is shallowly embedded: times are
integers (seconds), temperatures are rationals, sensor/HTTP/CSV interactions
are oracle inputs describing the outcome of each attempted side effect, and
the `DataManager` object is an explicit state record threaded through the
operations.
-/

set_option maxHeartbeats 1000000

namespace FlatAirCooler

/-! ## Configuration constants (backend.py lines 20-35) -/

def DEVICES_MACS : List String :=
  ["A4:C1:38:57:34:4F", "A4:C1:38:E8:B3:77", "A4:C1:38:6A:80:BD"]

def MAX_DATA_LEN : ℕ := 500

def MEASUREMENT_INTERVAL_MIN : ℤ := 20

def MEASUREMENT_INTERVAL_SEC : ℤ := MEASUREMENT_INTERVAL_MIN * 60

def MIN_SLEEP_SEC : ℤ := 5

def RETENTION_DAYS : ℤ := 3

/-! ## Data model -/

/-- One row of `recent_data` / one CSV row: the dict built in
`_generate_data_point` (backend.py lines 295-301).  A `none` slot is the
Python `pd.NA` / `None` absent value. -/
structure DataPoint where
  timestamp : ℤ
  sens1 : Option ℚ
  sens2 : Option ℚ
  sens3 : Option ℚ
  wroclaw : Option ℚ
  deriving DecidableEq

/-- Slot `i` of a data point: slot 0 is `Sens1`, 1 is `Sens2`, 2 is `Sens3`. -/
def DataPoint.slot (dp : DataPoint) : ℕ → Option ℚ
  | 0 => dp.sens1
  | 1 => dp.sens2
  | 2 => dp.sens3
  | _ => none

/-- Timestamp order between data points. -/
def tsLE (p q : DataPoint) : Prop := p.timestamp ≤ q.timestamp

instance : DecidableRel tsLE := fun p q => inferInstanceAs (Decidable (p.timestamp ≤ q.timestamp))

/-! ## HistoryWindow: `self.recent_data = deque(maxlen=MAX_DATA_LEN)`
(backend.py line 41).  Appending to a full bounded deque drops the oldest
(leftmost) entry before the new element is placed at the tail. -/

def pushWindow (w : List DataPoint) (p : DataPoint) : List DataPoint :=
  if w.length < MAX_DATA_LEN then w ++ [p] else w.tail ++ [p]

lemma pushWindow_length_le (w : List DataPoint) (p : DataPoint)
    (h : w.length ≤ MAX_DATA_LEN) : (pushWindow w p).length ≤ MAX_DATA_LEN := by
  unfold pushWindow MAX_DATA_LEN at *
  split <;>
    simp only [List.length_append, List.length_singleton, List.length_tail] <;> omega

lemma mem_pushWindow {w : List DataPoint} {p x : DataPoint}
    (hx : x ∈ pushWindow w p) : x ∈ w ∨ x = p := by
  unfold pushWindow at hx
  split at hx <;> rcases List.mem_append.mp hx with h | h
  · exact Or.inl h
  · exact Or.inr (List.mem_singleton.mp h)
  · exact Or.inl (List.mem_of_mem_tail h)
  · exact Or.inr (List.mem_singleton.mp h)

lemma pushWindow_pairwise {w : List DataPoint} {p : DataPoint}
    (hw : List.Pairwise tsLE w) (hp : ∀ x ∈ w, tsLE x p) :
    List.Pairwise tsLE (pushWindow w p) := by
  unfold pushWindow
  split
  · refine List.pairwise_append.mpr ⟨hw, List.pairwise_singleton _ _, ?_⟩
    intro a ha b hb
    rw [List.mem_singleton.mp hb]
    exact hp a ha
  · refine List.pairwise_append.mpr
      ⟨hw.sublist (List.tail_sublist w), List.pairwise_singleton _ _, ?_⟩
    intro a ha b hb
    rw [List.mem_singleton.mp hb]
    exact hp a (List.mem_of_mem_tail ha)

lemma foldl_pushWindow_length_le :
    ∀ (ps : List DataPoint) (w : List DataPoint), w.length ≤ MAX_DATA_LEN →
      (ps.foldl pushWindow w).length ≤ MAX_DATA_LEN := by
  intro ps
  induction ps with
  | nil => intro w hw; simpa using hw
  | cons p ps ih =>
      intro w hw
      simpa using ih (pushWindow w p) (pushWindow_length_le w p hw)

lemma foldl_pushWindow_pairwise :
    ∀ (ps : List DataPoint) (w : List DataPoint),
      List.Pairwise tsLE w → List.Pairwise tsLE ps →
      (∀ x ∈ w, ∀ q ∈ ps, tsLE x q) →
      List.Pairwise tsLE (ps.foldl pushWindow w) := by
  intro ps
  induction ps with
  | nil => intro w hw _ _; simpa using hw
  | cons p ps ih =>
      intro w hw hp hcross
      have hp' := List.pairwise_cons.mp hp
      refine ih (pushWindow w p) ?_ hp'.2 ?_
      · exact pushWindow_pairwise hw (fun x hx => hcross x hx p (List.mem_cons_self p ps))
      · intro x hx q hq
        rcases mem_pushWindow hx with h | h
        · exact hcross x h q (List.mem_cons_of_mem p hq)
        · rw [h]; exact hp'.1 q hq

/-- Claim C4: for every sequence of pushes the history window holds at most
`MAX_DATA_LEN = 500` entries; pushing into a full window evicts exactly the
oldest entry before appending the new point at the tail; and if the pushed
points arrive in non-decreasing timestamp order, the stored contents stay
non-decreasing in timestamp. -/
theorem claim_C4_window_invariants (ps : List DataPoint) :
    (ps.foldl pushWindow []).length ≤ MAX_DATA_LEN ∧
    (List.Pairwise tsLE ps → List.Pairwise tsLE (ps.foldl pushWindow [])) ∧
    (∀ (w : List DataPoint) (p : DataPoint), w.length = MAX_DATA_LEN →
      pushWindow w p = w.tail ++ [p]) := by
  refine ⟨?_, ?_, ?_⟩
  · exact foldl_pushWindow_length_le ps [] (by simp)
  · intro hps
    exact foldl_pushWindow_pairwise ps [] (by simp) hps (by simp)
  · intro w p hw
    unfold pushWindow
    rw [hw]
    simp

/-- Witness for C4 at a concrete push sequence. -/
theorem claim_C4_witness :
    List.Pairwise tsLE
        [({ timestamp := 1, sens1 := some 20, sens2 := none, sens3 := some 21, wroclaw := some 5 } : DataPoint),
         ({ timestamp := 2, sens1 := some 20, sens2 := some 19, sens3 := some 21, wroclaw := none } : DataPoint)] ∧
    (([({ timestamp := 1, sens1 := some 20, sens2 := none, sens3 := some 21, wroclaw := some 5 } : DataPoint),
       ({ timestamp := 2, sens1 := some 20, sens2 := some 19, sens3 := some 21, wroclaw := none } : DataPoint)].foldl pushWindow []).length ≤ MAX_DATA_LEN ∧
     (List.Pairwise tsLE
        [({ timestamp := 1, sens1 := some 20, sens2 := none, sens3 := some 21, wroclaw := some 5 } : DataPoint),
         ({ timestamp := 2, sens1 := some 20, sens2 := some 19, sens3 := some 21, wroclaw := none } : DataPoint)] →
      List.Pairwise tsLE
        ([({ timestamp := 1, sens1 := some 20, sens2 := none, sens3 := some 21, wroclaw := some 5 } : DataPoint),
          ({ timestamp := 2, sens1 := some 20, sens2 := some 19, sens3 := some 21, wroclaw := none } : DataPoint)].foldl pushWindow [])) ∧
     (∀ (w : List DataPoint) (p : DataPoint), w.length = MAX_DATA_LEN →
       pushWindow w p = w.tail ++ [p])) :=
  ⟨by decide,
   claim_C4_window_invariants
     [({ timestamp := 1, sens1 := some 20, sens2 := none, sens3 := some 21, wroclaw := some 5 } : DataPoint),
      ({ timestamp := 2, sens1 := some 20, sens2 := some 19, sens3 := some 21, wroclaw := none } : DataPoint)]⟩

/-! ## DataManager state (backend.py lines 38-59)

`thread` is abstracted to `threadAlive : Bool` (`self.thread is None or not
self.thread.is_alive()` becomes `threadAlive = false`), `ble_connections` to
the list of connected MAC addresses, and `watchdog_timer` to
`watchdogActive : Bool`. -/

structure DMState where
  recentData : List DataPoint
  prevTemp : List ℚ
  running : Bool
  threadAlive : Bool
  lastSuccessfulRead : ℤ
  consecutiveFailures : ℕ
  maxConsecutiveFailures : ℕ
  connections : List String
  watchdogActive : Bool
  deriving DecidableEq

/-- Embedding of `DataManager.stop` (backend.py lines 420-437): when running, clear the
running flag, cancel the watchdog timer, drop the worker thread reference and
disconnect every cached BLE connection. -/
def DataManager.stop (s : DMState) : DMState :=
  if s.running then
    { s with running := false, watchdogActive := false, threadAlive := false,
             connections := [] }
  else s

/-- Embedding of `DataManager.start` (backend.py lines 391-402): when not running, set the
running flag, reset the consecutive-failure counter, reset the
last-successful-read clock to now, launch the worker thread and arm the
watchdog timer. -/
def DataManager.start (now : ℤ) (s : DMState) : DMState :=
  if s.running then s
  else
    { s with running := true, consecutiveFailures := 0,
             lastSuccessfulRead := now, threadAlive := true,
             watchdogActive := true }

/-! ## SensorLink: `_get_temperature_humidity` (backend.py lines 205-240) -/

/-- The outcome of one iteration of the `for attempt in range(max_retries)`
loop: whether `_connect_to_device` returned a device, and, if the
characteristic read did not raise, the raw bytes it returned. -/
structure InnerAttempt where
  connectOk : Bool
  payload : Option (List (Fin 256))
  deriving DecidableEq

/-- Embedding of `struct.unpack("<HbH", raw)` followed by the scalings of backend.py line
222/225: a little-endian 16-bit unsigned raw temperature divided by 100, an
8-bit signed humidity, and a little-endian 16-bit unsigned raw battery value
divided by 1000.  Any payload that is not exactly 5 bytes makes
`struct.unpack` raise. -/
def unpackHbH (raw : List (Fin 256)) : Option (ℚ × ℤ × ℚ) :=
  match raw with
  | [b0, b1, b2, b3, b4] =>
    let tempRaw : ℕ := b0.val + 256 * b1.val
    let hum : ℤ := if 128 ≤ b2.val then (b2.val : ℤ) - 256 else (b2.val : ℤ)
    let batt : ℕ := b3.val + 256 * b4.val
    some ((tempRaw : ℚ) / 100, hum, (batt : ℚ) / 1000)
  | _ => none

/-- Observable events of one `_get_temperature_humidity` call.
`connectAttempt cached` records a `_connect_to_device` call that produced a
device, with `cached` telling whether a cached connection existed on entry
(when `false` the connection is necessarily freshly established). -/
inductive ReadEvent
  | connectAttempt (cached : Bool)
  | connectFailed
  | discarded
  | waited
  | decoded
  | errorRaised
  deriving DecidableEq

/-- Result of a `_get_temperature_humidity` call: `result = none` models the
raised `ConnectionError`, `cache` is whether a connection for the MAC is still
held in `ble_connections`, and `events` is the observable trace. -/
structure ReadOutcome where
  result : Option (ℚ × ℤ × ℚ)
  cache : Bool
  events : List ReadEvent
  deriving DecidableEq

/-- The retry loop of `_get_temperature_humidity`, with `fuel` the remaining
iterations of `for attempt in range(max_retries)` and `k` the index of the
current attempt.  On a connect failure or a read failure the cached
connection is discarded; between attempts the code sleeps; on the last
attempt the failure raises `ConnectionError`. -/
def getTempHumGo (attempts : ℕ → InnerAttempt) : ℕ → Bool → ℕ → ReadOutcome
  | _, cache, 0 => ⟨none, cache, [ReadEvent.errorRaised]⟩
  | k, cache, fuel + 1 =>
    let a := attempts k
    if a.connectOk then
      match a.payload.bind unpackHbH with
      | some v =>
        ⟨some v, true, [ReadEvent.connectAttempt cache, ReadEvent.decoded]⟩
      | none =>
        if fuel = 0 then
          ⟨none, false, [ReadEvent.connectAttempt cache, ReadEvent.discarded,
                         ReadEvent.errorRaised]⟩
        else
          let rest := getTempHumGo attempts (k + 1) false fuel
          ⟨rest.result, rest.cache,
           [ReadEvent.connectAttempt cache, ReadEvent.discarded,
            ReadEvent.waited] ++ rest.events⟩
    else
      if fuel = 0 then
        ⟨none, false, [ReadEvent.connectFailed, ReadEvent.errorRaised]⟩
      else
        let rest := getTempHumGo attempts (k + 1) false fuel
        ⟨rest.result, rest.cache,
         [ReadEvent.connectFailed, ReadEvent.waited] ++ rest.events⟩

/-- Embedding of `_get_temperature_humidity` with `max_retries = 3`. -/
def getTemperatureHumidity (cache : Bool) (attempts : ℕ → InnerAttempt) :
    ReadOutcome :=
  getTempHumGo attempts 0 cache 3

/-- Claim C9: a successful read decodes the 5-byte little-endian payload as a
16-bit unsigned raw temperature scaled by 1/100, an 8-bit signed humidity and
a 16-bit unsigned raw battery value scaled by 1/1000; and when every read
attempt fails the cached connection is discarded after each failure, a delay
is waited, a fresh (uncached) connection is attempted, and after the fixed
maximum of 3 attempts the call raises a link error instead of returning. -/
theorem claim_C9_sensor_read_decode_and_retry
    (cache : Bool) (b0 b1 b2 b3 b4 : Fin 256) (rest : ℕ → InnerAttempt) :
    (∃ h : ℤ,
      (getTemperatureHumidity cache
          (fun k => if k = 0 then ⟨true, some [b0, b1, b2, b3, b4]⟩ else rest k)).result
        = some (((b0.val : ℚ) + 256 * (b1.val : ℚ)) / 100, h,
                ((b3.val : ℚ) + 256 * (b4.val : ℚ)) / 1000) ∧
      -128 ≤ h ∧ h < 128 ∧ h % 256 = (b2.val : ℤ)) ∧
    (getTemperatureHumidity cache (fun _ => ⟨true, none⟩)).result = none ∧
    (getTemperatureHumidity cache (fun _ => ⟨true, none⟩)).cache = false ∧
    (getTemperatureHumidity cache (fun _ => ⟨true, none⟩)).events =
      [ReadEvent.connectAttempt cache, ReadEvent.discarded, ReadEvent.waited,
       ReadEvent.connectAttempt false, ReadEvent.discarded, ReadEvent.waited,
       ReadEvent.connectAttempt false, ReadEvent.discarded,
       ReadEvent.errorRaised] := by
  refine ⟨⟨if 128 ≤ b2.val then (b2.val : ℤ) - 256 else (b2.val : ℤ), ?_, ?_, ?_, ?_⟩, ?_, ?_, ?_⟩
  · have hstep :
        (getTemperatureHumidity cache
          (fun k => if k = 0 then ⟨true, some [b0, b1, b2, b3, b4]⟩ else rest k)).result
          = some (((b0.val + 256 * b1.val : ℕ) : ℚ) / 100,
                  (if 128 ≤ b2.val then (b2.val : ℤ) - 256 else (b2.val : ℤ)),
                  ((b3.val + 256 * b4.val : ℕ) : ℚ) / 1000) := by
      simp [getTemperatureHumidity, getTempHumGo, unpackHbH]
    rw [hstep]
    push_cast
    ring_nf
  · have := b2.isLt
    split <;> omega
  · have := b2.isLt
    split <;> omega
  · have := b2.isLt
    split <;> omega
  · simp [getTemperatureHumidity, getTempHumGo]
  · simp [getTemperatureHumidity, getTempHumGo]
  · simp [getTemperatureHumidity, getTempHumGo]

/-! ## WeatherSource: `_get_wroclaw_temperature` (backend.py lines 134-160) -/

/-- Embedding of `_get_wroclaw_temperature`: when no API key is configured the function
returns `None` immediately without making an HTTP request; otherwise the
outcome of the HTTP interaction decides the result (`none` models a raised
request exception, a non-2xx status or a missing `main.temp` field, all of
which return `None`). -/
def getWroclawTemperature (apiKeyConfigured : Bool) (httpTemp : Option ℚ) :
    Option ℚ :=
  if apiKeyConfigured then httpTemp else none

/-! ## Sampler: `_generate_data_point` (backend.py lines 242-340) -/

/-- Oracle describing everything the environment does during one cycle:
`sensorCalls[i][k]` is the outcome of the `k`-th call of
`_get_temperature_humidity` for sensor `i` (`some t` = returned with
temperature `t`, `none` = raised), `weatherHttp[k]` is the temperature the
`k`-th HTTP weather interaction would produce, and `csvOk` is whether the
`to_csv` append succeeds. -/
structure CycleInput where
  timestamp : ℤ
  now : ℤ
  sensorCalls : List (List (Option ℚ))
  weatherHttp : List (Option ℚ)
  csvOk : Bool
  deriving DecidableEq

/-- The sensor retry loop of backend.py lines 258-277: `retries = 3`, then
`while retries > 0 and not sensor_success`; a raised read decrements the
retry budget and the loop sleeps and retries; `none` is the
exhausted-retries outcome (`temps.append(pd.NA)`). -/
def sensorRetryLoop (calls : ℕ → Option ℚ) : ℕ → ℕ → Option ℚ
  | _, 0 => none
  | k, r + 1 =>
    match calls k with
    | some t => some t
    | none => sensorRetryLoop calls (k + 1) r

/-- The weather retry loop of backend.py lines 280-292: `weather_retries = 3`,
`while weather_retries > 0 and wroclaw_temp is None`. -/
def weatherRetryLoop (apiKeyConfigured : Bool) (http : ℕ → Option ℚ) :
    ℕ → ℕ → Option ℚ
  | _, 0 => none
  | k, r + 1 =>
    match getWroclawTemperature apiKeyConfigured (http k) with
    | some t => some t
    | none => weatherRetryLoop apiKeyConfigured http (k + 1) r

/-- Final slot value of sensor `i` in one cycle. -/
def sensorOutcome (inp : CycleInput) (i : ℕ) : Option ℚ :=
  sensorRetryLoop (fun k => (inp.sensorCalls.getD i []).getD k none) 0 3

/-- Final weather slot value in one cycle. -/
def weatherOutcome (apiKeyConfigured : Bool) (inp : CycleInput) : Option ℚ :=
  weatherRetryLoop apiKeyConfigured (fun k => inp.weatherHttp.getD k none) 0 3

/-- Body of `for i, mac in enumerate(DEVICES_MACS)`: accumulates the `temps`
list, the `prev_temp` updates and the `all_success` flag. -/
def sensorStep (inp : CycleInput) (acc : List (Option ℚ) × List ℚ × Bool)
    (i : ℕ) : List (Option ℚ) × List ℚ × Bool :=
  match sensorOutcome inp i with
  | some t => (acc.1 ++ [some t], acc.2.1.set i t, acc.2.2)
  | none => (acc.1 ++ [none], acc.2.1, false)

/-- Result of one `_generate_data_point` call: the new state, the returned
`all_success` flag, the data point handed to `to_csv`, whether the `to_csv`
append was attempted (it always is), and whether the cycle executed the
`self.stop(); self.start()` restart sequence itself. -/
structure CycleResult where
  state : DMState
  success : Bool
  dataPoint : DataPoint
  csvAttempted : Bool
  restarted : Bool
  deriving DecidableEq

/-- Embedding of `_generate_data_point` (backend.py lines 242-340). -/
def generateDataPoint (apiKeyConfigured : Bool) (inp : CycleInput)
    (s : DMState) : CycleResult :=
  let r := (List.range DEVICES_MACS.length).foldl (sensorStep inp)
    ([], s.prevTemp, true)
  let temps := r.1
  let prev := r.2.1
  let sensorsOk := r.2.2
  let wroclawTemp := weatherOutcome apiKeyConfigured inp
  let allSuccess := sensorsOk && wroclawTemp.isSome
  let dp : DataPoint :=
    { timestamp := inp.timestamp
      sens1 := temps.getD 0 none
      sens2 := temps.getD 1 none
      sens3 := temps.getD 2 none
      wroclaw := wroclawTemp }
  if inp.csvOk then
    let s1 := { s with recentData := pushWindow s.recentData dp,
                       prevTemp := prev }
    if allSuccess then
      { state := { s1 with consecutiveFailures := 0,
                           lastSuccessfulRead := inp.now },
        success := true, dataPoint := dp, csvAttempted := true,
        restarted := false }
    else
      let s2 := { s1 with consecutiveFailures := s1.consecutiveFailures + 1 }
      if s2.maxConsecutiveFailures ≤ s2.consecutiveFailures then
        { state := DataManager.start inp.now (DataManager.stop s2),
          success := false, dataPoint := dp, csvAttempted := true,
          restarted := true }
      else
        { state := s2, success := false, dataPoint := dp,
          csvAttempted := true, restarted := false }
  else
    let s2 := { s with prevTemp := prev,
                       consecutiveFailures := s.consecutiveFailures + 1 }
    if s2.maxConsecutiveFailures ≤ s2.consecutiveFailures then
      { state := DataManager.start inp.now (DataManager.stop s2),
        success := false, dataPoint := dp, csvAttempted := true,
        restarted := true }
    else
      { state := s2, success := false, dataPoint := dp,
        csvAttempted := true, restarted := false }

/-! ### Characterization lemmas for `generateDataPoint` -/

lemma sensorStep_fst (inp : CycleInput) (acc : List (Option ℚ) × List ℚ × Bool)
    (i : ℕ) : (sensorStep inp acc i).1 = acc.1 ++ [sensorOutcome inp i] := by
  cases h : sensorOutcome inp i <;> simp [sensorStep, h]

lemma sensorStep_flag (inp : CycleInput) (acc : List (Option ℚ) × List ℚ × Bool)
    (i : ℕ) :
    (sensorStep inp acc i).2.2 = (acc.2.2 && (sensorOutcome inp i).isSome) := by
  cases h : sensorOutcome inp i <;> simp [sensorStep, h]

lemma sensorFold_fst (inp : CycleInput) (prev : List ℚ) :
    ((List.range DEVICES_MACS.length).foldl (sensorStep inp)
      ([], prev, true)).1 =
      [sensorOutcome inp 0, sensorOutcome inp 1, sensorOutcome inp 2] := by
  rw [show List.range DEVICES_MACS.length = [0, 1, 2] from rfl]
  simp [List.foldl_cons, List.foldl_nil, sensorStep_fst]

lemma sensorFold_flag (inp : CycleInput) (prev : List ℚ) :
    ((List.range DEVICES_MACS.length).foldl (sensorStep inp)
      ([], prev, true)).2.2 =
      ((sensorOutcome inp 0).isSome && ((sensorOutcome inp 1).isSome &&
        (sensorOutcome inp 2).isSome)) := by
  rw [show List.range DEVICES_MACS.length = [0, 1, 2] from rfl]
  simp [List.foldl_cons, List.foldl_nil, sensorStep_flag, Bool.and_assoc]

lemma start_stop_consecutiveFailures (n : ℤ) (s : DMState) :
    (DataManager.start n (DataManager.stop s)).consecutiveFailures = 0 := by
  unfold DataManager.start DataManager.stop
  split_ifs with h1 <;> simp_all

lemma start_stop_recentData (n : ℤ) (s : DMState) :
    (DataManager.start n (DataManager.stop s)).recentData = s.recentData := by
  unfold DataManager.start DataManager.stop
  split_ifs with h1 <;> simp_all

lemma start_stop_maxConsecutiveFailures (n : ℤ) (s : DMState) :
    (DataManager.start n (DataManager.stop s)).maxConsecutiveFailures =
      s.maxConsecutiveFailures := by
  unfold DataManager.start DataManager.stop
  split_ifs with h1 <;> simp_all

lemma gdp_dataPoint (a : Bool) (inp : CycleInput) (s : DMState) :
    (generateDataPoint a inp s).dataPoint =
      { timestamp := inp.timestamp
        sens1 := sensorOutcome inp 0
        sens2 := sensorOutcome inp 1
        sens3 := sensorOutcome inp 2
        wroclaw := weatherOutcome a inp } := by
  unfold generateDataPoint
  simp only [apply_ite (CycleResult.dataPoint), ite_self]
  simp [sensorFold_fst]

lemma gdp_success (a : Bool) (inp : CycleInput) (s : DMState) :
    (generateDataPoint a inp s).success =
      (((sensorOutcome inp 0).isSome && ((sensorOutcome inp 1).isSome &&
        ((sensorOutcome inp 2).isSome &&
          (weatherOutcome a inp).isSome))) && inp.csvOk) := by
  unfold generateDataPoint
  simp only [apply_ite (CycleResult.success), ite_self]
  rcases hc : inp.csvOk <;>
    by_cases h0 : (sensorOutcome inp 0).isSome = true <;>
    by_cases h1 : (sensorOutcome inp 1).isSome = true <;>
    by_cases h2 : (sensorOutcome inp 2).isSome = true <;>
    by_cases hw : (weatherOutcome a inp).isSome = true <;>
    simp_all [sensorFold_flag]

lemma gdp_csvAttempted (a : Bool) (inp : CycleInput) (s : DMState) :
    (generateDataPoint a inp s).csvAttempted = true := by
  unfold generateDataPoint
  simp only [apply_ite (CycleResult.csvAttempted), ite_self]

lemma gdp_maxConsecutiveFailures (a : Bool) (inp : CycleInput) (s : DMState) :
    (generateDataPoint a inp s).state.maxConsecutiveFailures =
      s.maxConsecutiveFailures := by
  unfold generateDataPoint
  simp only [apply_ite (fun r : CycleResult => r.state.maxConsecutiveFailures),
    start_stop_maxConsecutiveFailures, ite_self]

lemma gdp_recentData (a : Bool) (inp : CycleInput) (s : DMState) :
    (generateDataPoint a inp s).state.recentData =
      if inp.csvOk then
        pushWindow s.recentData (generateDataPoint a inp s).dataPoint
      else s.recentData := by
  rw [gdp_dataPoint]
  unfold generateDataPoint
  simp only [apply_ite (fun r : CycleResult => r.state.recentData),
    start_stop_recentData, ite_self]
  rcases hc : inp.csvOk <;> simp [hc, sensorFold_fst]

lemma gdp_restarted (a : Bool) (inp : CycleInput) (s : DMState) :
    (generateDataPoint a inp s).restarted = true ↔
      ((generateDataPoint a inp s).success = false ∧
        s.maxConsecutiveFailures ≤ s.consecutiveFailures + 1) := by
  rw [gdp_success]
  unfold generateDataPoint
  simp only [apply_ite (CycleResult.restarted), ite_self]
  rcases hc : inp.csvOk <;>
    by_cases hthr : s.maxConsecutiveFailures ≤ s.consecutiveFailures + 1 <;>
    by_cases h0 : (sensorOutcome inp 0).isSome = true <;>
    by_cases h1 : (sensorOutcome inp 1).isSome = true <;>
    by_cases h2 : (sensorOutcome inp 2).isSome = true <;>
    by_cases hw : (weatherOutcome a inp).isSome = true <;>
    simp_all [sensorFold_flag]

lemma gdp_consecutiveFailures (a : Bool) (inp : CycleInput) (s : DMState) :
    (generateDataPoint a inp s).state.consecutiveFailures =
      if (generateDataPoint a inp s).success then 0
      else if s.maxConsecutiveFailures ≤ s.consecutiveFailures + 1 then 0
      else s.consecutiveFailures + 1 := by
  rw [gdp_success]
  unfold generateDataPoint
  simp only [apply_ite (fun r : CycleResult => r.state.consecutiveFailures),
    start_stop_consecutiveFailures, ite_self]
  rcases hc : inp.csvOk <;>
    by_cases hthr : s.maxConsecutiveFailures ≤ s.consecutiveFailures + 1 <;>
    by_cases h0 : (sensorOutcome inp 0).isSome = true <;>
    by_cases h1 : (sensorOutcome inp 1).isSome = true <;>
    by_cases h2 : (sensorOutcome inp 2).isSome = true <;>
    by_cases hw : (weatherOutcome a inp).isSome = true <;>
    simp_all [sensorFold_flag]

lemma sensorRetryLoop_of_none (calls : ℕ → Option ℚ)
    (h : ∀ k, calls k = none) : ∀ (r k : ℕ), sensorRetryLoop calls k r = none := by
  intro r
  induction r with
  | zero => intro k; rfl
  | succ r ih => intro k; simp [sensorRetryLoop, h k, ih (k + 1)]

lemma sensorRetryLoop_first (calls : ℕ → Option ℚ) (k : ℕ) (t : ℚ)
    (h : calls k = some t) (r : ℕ) :
    sensorRetryLoop calls k (r + 1) = some t := by
  simp [sensorRetryLoop, h]

lemma sensorOutcome_of_none (inp : CycleInput) (i : ℕ)
    (h : ∀ k, (inp.sensorCalls.getD i []).getD k none = none) :
    sensorOutcome inp i = none :=
  sensorRetryLoop_of_none _ h 3 0

lemma sensorOutcome_first (inp : CycleInput) (i : ℕ) (t : ℚ)
    (h : (inp.sensorCalls.getD i []).getD 0 none = some t) :
    sensorOutcome inp i = some t :=
  sensorRetryLoop_first _ 0 t h 2

lemma weatherRetryLoop_noKey (http : ℕ → Option ℚ) :
    ∀ (r k : ℕ), weatherRetryLoop false http k r = none := by
  intro r
  induction r with
  | zero => intro k; rfl
  | succ r ih =>
      intro k
      simp [weatherRetryLoop, getWroclawTemperature, ih (k + 1)]

lemma weatherOutcome_noKey (inp : CycleInput) :
    weatherOutcome false inp = none :=
  weatherRetryLoop_noKey _ 3 0

lemma weatherOutcome_first (inp : CycleInput) (t : ℚ)
    (h : inp.weatherHttp.getD 0 none = some t) :
    weatherOutcome true inp = some t := by
  unfold weatherOutcome weatherRetryLoop
  simp only [List.getD, List.get?_eq_getElem?] at h
  simp [getWroclawTemperature, h]

/-- A baseline `DataManager` state as built by `__init__` with an empty
history: `prev_temp = [22.0] * 3`, no failures, running with a live worker. -/
def baseState : DMState :=
  { recentData := [], prevTemp := [22, 22, 22], running := true,
    threadAlive := true, lastSuccessfulRead := 0, consecutiveFailures := 0,
    maxConsecutiveFailures := 5, connections := [], watchdogActive := true }

/-- Counterexample to claim C2 as stated: a cycle in which every sensor read
and the weather fetch succeed but the CSV append raises returns `false`, so
the return value is not `true` iff all readings were obtained — it also
requires the persistence append to succeed. -/
theorem claim_C2_counterexample :
    (generateDataPoint true
      { timestamp := 0, now := 0,
        sensorCalls := [[some 20], [some 21], [some 22]],
        weatherHttp := [some 5], csvOk := false } baseState).success = false ∧
    (generateDataPoint true
      { timestamp := 0, now := 0,
        sensorCalls := [[some 20], [some 21], [some 22]],
        weatherHttp := [some 5], csvOk := false } baseState).dataPoint.sens1.isSome = true ∧
    (generateDataPoint true
      { timestamp := 0, now := 0,
        sensorCalls := [[some 20], [some 21], [some 22]],
        weatherHttp := [some 5], csvOk := false } baseState).dataPoint.sens2.isSome = true ∧
    (generateDataPoint true
      { timestamp := 0, now := 0,
        sensorCalls := [[some 20], [some 21], [some 22]],
        weatherHttp := [some 5], csvOk := false } baseState).dataPoint.sens3.isSome = true ∧
    (generateDataPoint true
      { timestamp := 0, now := 0,
        sensorCalls := [[some 20], [some 21], [some 22]],
        weatherHttp := [some 5], csvOk := false } baseState).dataPoint.wroclaw.isSome = true := by
  decide

/-- Claim C2 as amended: `_generate_data_point` returns `true` iff every
reading (all three sensors and the weather) was obtained without exhausting
its retries AND the CSV append succeeded; it always builds exactly one
DataPoint carrying the cycle's timestamp and always attempts to persist it. -/
theorem claim_C2_success_flag_contract (a : Bool) (inp : CycleInput)
    (s : DMState) :
    (generateDataPoint a inp s).success =
      (((generateDataPoint a inp s).dataPoint.sens1.isSome &&
        ((generateDataPoint a inp s).dataPoint.sens2.isSome &&
          ((generateDataPoint a inp s).dataPoint.sens3.isSome &&
            (generateDataPoint a inp s).dataPoint.wroclaw.isSome))) &&
        inp.csvOk) ∧
    (generateDataPoint a inp s).csvAttempted = true ∧
    (generateDataPoint a inp s).dataPoint.timestamp = inp.timestamp := by
  refine ⟨?_, gdp_csvAttempted a inp s, ?_⟩
  · rw [gdp_success, gdp_dataPoint]
  · rw [gdp_dataPoint]

/-- Counterexample to claim C1 as stated: with the failure counter at 4, one
more failing cycle makes `_generate_data_point` itself execute
`self.stop(); self.start()` — the cycle performs the restart rather than
merely requesting it from the Supervisor. -/
theorem claim_C1_counterexample :
    (generateDataPoint true
      { timestamp := 0, now := 0, sensorCalls := [], weatherHttp := [],
        csvOk := true }
      { baseState with consecutiveFailures := 4 }).restarted = true ∧
    (generateDataPoint true
      { timestamp := 0, now := 0, sensorCalls := [], weatherHttp := [],
        csvOk := true }
      { baseState with consecutiveFailures := 4 }).state.consecutiveFailures
      = 0 := by
  decide

/-- Claim C1 as amended: the consecutive-failure counter is incremented on
any failed cycle and reset to 0 on a successful one; when it reaches the
threshold of 5 the cycle itself performs the full restart
(`self.stop(); self.start()`) exactly once and the counter is 0 immediately
after; below the threshold no restart happens. -/
theorem claim_C1_failure_counter_and_restart (a : Bool) (inp : CycleInput)
    (s : DMState) (hmax : s.maxConsecutiveFailures = 5) :
    ((generateDataPoint a inp s).success = true →
      (generateDataPoint a inp s).state.consecutiveFailures = 0 ∧
      (generateDataPoint a inp s).restarted = false) ∧
    ((generateDataPoint a inp s).success = false →
      s.consecutiveFailures + 1 < 5 →
      (generateDataPoint a inp s).state.consecutiveFailures =
        s.consecutiveFailures + 1 ∧
      (generateDataPoint a inp s).restarted = false) ∧
    ((generateDataPoint a inp s).success = false →
      5 ≤ s.consecutiveFailures + 1 →
      (generateDataPoint a inp s).restarted = true ∧
      (generateDataPoint a inp s).state.consecutiveFailures = 0) := by
  refine ⟨fun hs => ⟨?_, ?_⟩, fun hs hlt => ⟨?_, ?_⟩, fun hs hge => ⟨?_, ?_⟩⟩
  · rw [gdp_consecutiveFailures, hs]; rfl
  · rcases hr : (generateDataPoint a inp s).restarted with _ | _
    · rfl
    · rcases (gdp_restarted a inp s).mp hr with ⟨hfalse, _⟩
      rw [hs] at hfalse
      exact absurd hfalse (by simp)
  · rw [gdp_consecutiveFailures, hs, hmax]
    simp [Nat.not_le.mpr hlt]
  · rcases hr : (generateDataPoint a inp s).restarted with _ | _
    · rfl
    · rcases (gdp_restarted a inp s).mp hr with ⟨_, hthr⟩
      rw [hmax] at hthr
      omega
  · exact (gdp_restarted a inp s).mpr ⟨hs, by rw [hmax]; exact hge⟩
  · rw [gdp_consecutiveFailures, hs, hmax]
    simp [hge]

/-- Witness for C1 at a concrete failing cycle with the counter at 4. -/
theorem claim_C1_witness :
    ({ baseState with consecutiveFailures := 4 } : DMState).maxConsecutiveFailures = 5 ∧
    (((generateDataPoint true
        { timestamp := 0, now := 0, sensorCalls := [[some 20]],
          weatherHttp := [], csvOk := true }
        { baseState with consecutiveFailures := 4 }).success = true →
      (generateDataPoint true
        { timestamp := 0, now := 0, sensorCalls := [[some 20]],
          weatherHttp := [], csvOk := true }
        { baseState with consecutiveFailures := 4 }).state.consecutiveFailures = 0 ∧
      (generateDataPoint true
        { timestamp := 0, now := 0, sensorCalls := [[some 20]],
          weatherHttp := [], csvOk := true }
        { baseState with consecutiveFailures := 4 }).restarted = false) ∧
    ((generateDataPoint true
        { timestamp := 0, now := 0, sensorCalls := [[some 20]],
          weatherHttp := [], csvOk := true }
        { baseState with consecutiveFailures := 4 }).success = false →
      ({ baseState with consecutiveFailures := 4 } : DMState).consecutiveFailures + 1 < 5 →
      (generateDataPoint true
        { timestamp := 0, now := 0, sensorCalls := [[some 20]],
          weatherHttp := [], csvOk := true }
        { baseState with consecutiveFailures := 4 }).state.consecutiveFailures =
        ({ baseState with consecutiveFailures := 4 } : DMState).consecutiveFailures + 1 ∧
      (generateDataPoint true
        { timestamp := 0, now := 0, sensorCalls := [[some 20]],
          weatherHttp := [], csvOk := true }
        { baseState with consecutiveFailures := 4 }).restarted = false) ∧
    ((generateDataPoint true
        { timestamp := 0, now := 0, sensorCalls := [[some 20]],
          weatherHttp := [], csvOk := true }
        { baseState with consecutiveFailures := 4 }).success = false →
      5 ≤ ({ baseState with consecutiveFailures := 4 } : DMState).consecutiveFailures + 1 →
      (generateDataPoint true
        { timestamp := 0, now := 0, sensorCalls := [[some 20]],
          weatherHttp := [], csvOk := true }
        { baseState with consecutiveFailures := 4 }).restarted = true ∧
      (generateDataPoint true
        { timestamp := 0, now := 0, sensorCalls := [[some 20]],
          weatherHttp := [], csvOk := true }
        { baseState with consecutiveFailures := 4 }).state.consecutiveFailures = 0)) :=
  ⟨by decide,
   claim_C1_failure_counter_and_restart true
     { timestamp := 0, now := 0, sensorCalls := [[some 20]],
       weatherHttp := [], csvOk := true }
     { baseState with consecutiveFailures := 4 } (by decide)⟩

/-- Claim C3: the DataPoint goes to the CSV log first and to the in-memory
history window only if the append succeeds; when the append raises, the
window is unchanged, the cycle returns `false`, the consecutive-failure
counter is incremented (below the restart threshold), and the cycle does not
crash. -/
theorem claim_C3_write_through (a : Bool) (inp : CycleInput) (s : DMState)
    (hcsv : inp.csvOk = false) :
    (generateDataPoint a inp s).state.recentData = s.recentData ∧
    (generateDataPoint a inp s).success = false ∧
    (s.consecutiveFailures + 1 < s.maxConsecutiveFailures →
      (generateDataPoint a inp s).state.consecutiveFailures =
        s.consecutiveFailures + 1) ∧
    (∀ inp2 : CycleInput, inp2.csvOk = true →
      (generateDataPoint a inp2 s).state.recentData =
        pushWindow s.recentData (generateDataPoint a inp2 s).dataPoint) := by
  refine ⟨?_, ?_, ?_, ?_⟩
  · rw [gdp_recentData, hcsv]; rfl
  · rw [gdp_success, hcsv]; simp
  · intro hlt
    rw [gdp_consecutiveFailures, gdp_success, hcsv]
    simp [Nat.not_le.mpr hlt]
  · intro inp2 h2
    rw [gdp_recentData, h2]
    rfl

/-- Witness for C3 at a concrete cycle whose CSV append fails. -/
theorem claim_C3_witness :
    ({ timestamp := 3, now := 3, sensorCalls := [[some 20], [some 21], [some 22]],
       weatherHttp := [some 5], csvOk := false } : CycleInput).csvOk = false ∧
    ((generateDataPoint true
        { timestamp := 3, now := 3, sensorCalls := [[some 20], [some 21], [some 22]],
          weatherHttp := [some 5], csvOk := false } baseState).state.recentData =
        baseState.recentData ∧
     (generateDataPoint true
        { timestamp := 3, now := 3, sensorCalls := [[some 20], [some 21], [some 22]],
          weatherHttp := [some 5], csvOk := false } baseState).success = false ∧
     (baseState.consecutiveFailures + 1 < baseState.maxConsecutiveFailures →
       (generateDataPoint true
        { timestamp := 3, now := 3, sensorCalls := [[some 20], [some 21], [some 22]],
          weatherHttp := [some 5], csvOk := false } baseState).state.consecutiveFailures =
         baseState.consecutiveFailures + 1) ∧
     (∀ inp2 : CycleInput, inp2.csvOk = true →
       (generateDataPoint true inp2 baseState).state.recentData =
         pushWindow baseState.recentData
           (generateDataPoint true inp2 baseState).dataPoint)) :=
  ⟨by decide,
   claim_C3_write_through true
     { timestamp := 3, now := 3, sensorCalls := [[some 20], [some 21], [some 22]],
       weatherHttp := [some 5], csvOk := false } baseState (by decide)⟩

/-- Claim C5: when one configured sensor exhausts the bounded retry loop of
the cycle while the other sensors and the weather fetch succeed, the cycle
returns `false` and the produced DataPoint has `pd.NA` (absent) in that
sensor's slot — the code's single uniform policy, the last-known-good values
in `prev_temp` are never substituted — while every other slot is populated. -/
theorem claim_C5_sensor_exhaustion (inp : CycleInput) (s : DMState) (i : ℕ)
    (hi : i < 3)
    (hfail : ∀ k, (inp.sensorCalls.getD i []).getD k none = none)
    (hothers : ∀ j, j < 3 → j ≠ i →
      ((inp.sensorCalls.getD j []).getD 0 none).isSome = true)
    (hweather : (inp.weatherHttp.getD 0 none).isSome = true) :
    (generateDataPoint true inp s).success = false ∧
    (generateDataPoint true inp s).dataPoint.slot i = none ∧
    (∀ j, j < 3 → j ≠ i →
      ((generateDataPoint true inp s).dataPoint.slot j).isSome = true) ∧
    (generateDataPoint true inp s).dataPoint.wroclaw.isSome = true := by
  have hio : sensorOutcome inp i = none := sensorOutcome_of_none inp i hfail
  have hjo : ∀ j, j < 3 → j ≠ i → (sensorOutcome inp j).isSome = true := by
    intro j hj hne
    rcases Option.isSome_iff_exists.mp (hothers j hj hne) with ⟨t, ht⟩
    rw [sensorOutcome_first inp j t ht]
    rfl
  have hwo : (weatherOutcome true inp).isSome = true := by
    rcases Option.isSome_iff_exists.mp hweather with ⟨t, ht⟩
    rw [weatherOutcome_first inp t ht]
    rfl
  refine ⟨?_, ?_, ?_, ?_⟩
  · rw [gdp_success]
    interval_cases i <;>
      simp_all
  · rw [gdp_dataPoint]
    interval_cases i <;> simpa [DataPoint.slot] using hio
  · intro j hj hne
    rw [gdp_dataPoint]
    interval_cases j <;> simpa [DataPoint.slot] using hjo _ (by omega) hne
  · rw [gdp_dataPoint]
    exact hwo

/-- Witness for C5: sensor 2 (index 1) always fails, the others and the
weather succeed on the first attempt. -/
theorem claim_C5_witness :
    ((1 : ℕ) < 3 ∧
     (∀ k, ((({ timestamp := 7, now := 7,
                sensorCalls := [[some 20], [], [some 22]],
                weatherHttp := [some 5], csvOk := true } : CycleInput).sensorCalls.getD 1 []).getD k none = none)) ∧
    ((generateDataPoint true
        { timestamp := 7, now := 7, sensorCalls := [[some 20], [], [some 22]],
          weatherHttp := [some 5], csvOk := true } baseState).success = false ∧
     (generateDataPoint true
        { timestamp := 7, now := 7, sensorCalls := [[some 20], [], [some 22]],
          weatherHttp := [some 5], csvOk := true } baseState).dataPoint.slot 1 = none ∧
     (∀ j, j < 3 → j ≠ 1 →
       ((generateDataPoint true
        { timestamp := 7, now := 7, sensorCalls := [[some 20], [], [some 22]],
          weatherHttp := [some 5], csvOk := true } baseState).dataPoint.slot j).isSome = true) ∧
     (generateDataPoint true
        { timestamp := 7, now := 7, sensorCalls := [[some 20], [], [some 22]],
          weatherHttp := [some 5], csvOk := true } baseState).dataPoint.wroclaw.isSome = true)) :=
  ⟨by decide, fun k => by simp [List.getD],
   claim_C5_sensor_exhaustion
     { timestamp := 7, now := 7, sensorCalls := [[some 20], [], [some 22]],
       weatherHttp := [some 5], csvOk := true } baseState 1
     (by decide) (fun k => by simp [List.getD])
     (by decide) (by decide)⟩

/-! ## Repeated cycles (for C10) -/

/-- Iterate `_generate_data_point` over a list of cycle inputs, collecting
each cycle's result. -/
def runCycles (apiKeyConfigured : Bool) (s : DMState) :
    List CycleInput → List CycleResult
  | [] => []
  | inp :: rest =>
    let r := generateDataPoint apiKeyConfigured inp s
    r :: runCycles apiKeyConfigured r.state rest

/-- Fixed fallback cycle result used with `List.getD`. -/
def dummyCycleResult : CycleResult :=
  { state := baseState, success := false,
    dataPoint := { timestamp := 0, sens1 := none, sens2 := none,
                   sens3 := none, wroclaw := none },
    csvAttempted := false, restarted := false }

lemma runCycles_length (a : Bool) (s : DMState) (inps : List CycleInput) :
    (runCycles a s inps).length = inps.length := by
  induction inps generalizing s with
  | nil => rfl
  | cons inp rest ih => simp [runCycles, ih]

lemma gdp_noKey_success (inp : CycleInput) (s : DMState) :
    (generateDataPoint false inp s).success = false := by
  rw [gdp_success]
  simp [weatherOutcome_noKey]

lemma gdp_noKey_wroclaw (inp : CycleInput) (s : DMState) :
    (generateDataPoint false inp s).dataPoint.wroclaw = none := by
  rw [gdp_dataPoint]
  simpa using weatherOutcome_noKey inp

lemma runCycles_noKey (inps : List CycleInput) :
    ∀ (s : DMState) (k : ℕ), s.maxConsecutiveFailures = 5 →
      s.consecutiveFailures = k % 5 →
      ∀ i, i < inps.length →
        ((runCycles false s inps).getD i dummyCycleResult).success = false ∧
        ((runCycles false s inps).getD i dummyCycleResult).dataPoint.wroclaw
          = none ∧
        (((runCycles false s inps).getD i dummyCycleResult).restarted = true ↔
          (k + i + 1) % 5 = 0) := by
  induction inps with
  | nil => intro s k _ _ i hi; simp at hi
  | cons inp rest ih =>
      intro s k hmax hcf i hi
      have hsucc : (generateDataPoint false inp s).success = false :=
        gdp_noKey_success inp s
      have hres : (generateDataPoint false inp s).restarted = true ↔
          (k + 1) % 5 = 0 := by
        rw [gdp_restarted, hmax, hcf]
        constructor
        · rintro ⟨_, h⟩; omega
        · intro h; exact ⟨hsucc, by omega⟩
      have hcf' : (generateDataPoint false inp s).state.consecutiveFailures =
          (k + 1) % 5 := by
        rw [gdp_consecutiveFailures, hsucc, hmax, hcf]
        by_cases h : 5 ≤ k % 5 + 1 <;> simp [h] <;> omega
      have hmax' :
          (generateDataPoint false inp s).state.maxConsecutiveFailures = 5 := by
        rw [gdp_maxConsecutiveFailures]; exact hmax
      match i with
      | 0 =>
          refine ⟨?_, ?_, ?_⟩ <;>
            simp [runCycles, List.getD_cons_zero, hsucc,
              gdp_noKey_wroclaw inp s, hres]
      | j + 1 =>
          have hj : j < rest.length := by simpa using hi
          have := ih (generateDataPoint false inp s).state (k + 1) hmax' hcf' j hj
          have harith : k + 1 + j + 1 = k + (j + 1) + 1 := by omega
          rw [harith] at this
          simpa [runCycles, List.getD_cons_succ] using this

/-- Claim C10: with no OpenWeatherMap API key configured, the weather fetch
returns absent immediately and independently of the HTTP layer on every
attempt, so every cycle produces a DataPoint with an absent weather slot and
returns `false` even when all sensor reads succeed and the CSV append works;
consequently, starting from a zero counter, the restart of the acquisition
subsystem fires exactly on every 5th cycle. -/
theorem claim_C10_no_api_key (inps : List CycleInput) (s : DMState)
    (hmax : s.maxConsecutiveFailures = 5) (hcf : s.consecutiveFailures = 0)
    (hgood : ∀ inp ∈ inps, inp.csvOk = true ∧
      ∀ i, i < 3 → ((inp.sensorCalls.getD i []).getD 0 none).isSome = true) :
    (∀ http : Option ℚ, getWroclawTemperature false http = none) ∧
    (∀ i, i < inps.length →
      ((runCycles false s inps).getD i dummyCycleResult).success = false ∧
      ((runCycles false s inps).getD i dummyCycleResult).dataPoint.wroclaw
        = none ∧
      (((runCycles false s inps).getD i dummyCycleResult).restarted = true ↔
        (i + 1) % 5 = 0)) := by
  refine ⟨fun http => rfl, fun i hi => ?_⟩
  have := runCycles_noKey inps s 0 hmax (by simpa using hcf) i hi
  simpa using this

/-- Witness for C10: ten identical cycles with working sensors and CSV but no
API key. -/
theorem claim_C10_witness :
    (baseState.maxConsecutiveFailures = 5 ∧
     baseState.consecutiveFailures = 0 ∧
     (∀ inp ∈ List.replicate 10
        ({ timestamp := 0, now := 0,
           sensorCalls := [[some 20], [some 21], [some 22]],
           weatherHttp := [], csvOk := true } : CycleInput),
        inp.csvOk = true ∧
        ∀ i, i < 3 → ((inp.sensorCalls.getD i []).getD 0 none).isSome = true)) ∧
    ((∀ http : Option ℚ, getWroclawTemperature false http = none) ∧
     (∀ i, i < (List.replicate 10
        ({ timestamp := 0, now := 0,
           sensorCalls := [[some 20], [some 21], [some 22]],
           weatherHttp := [], csvOk := true } : CycleInput)).length →
      ((runCycles false baseState (List.replicate 10
        ({ timestamp := 0, now := 0,
           sensorCalls := [[some 20], [some 21], [some 22]],
           weatherHttp := [], csvOk := true } : CycleInput))).getD i
          dummyCycleResult).success = false ∧
      ((runCycles false baseState (List.replicate 10
        ({ timestamp := 0, now := 0,
           sensorCalls := [[some 20], [some 21], [some 22]],
           weatherHttp := [], csvOk := true } : CycleInput))).getD i
          dummyCycleResult).dataPoint.wroclaw = none ∧
      (((runCycles false baseState (List.replicate 10
        ({ timestamp := 0, now := 0,
           sensorCalls := [[some 20], [some 21], [some 22]],
           weatherHttp := [], csvOk := true } : CycleInput))).getD i
          dummyCycleResult).restarted = true ↔ (i + 1) % 5 = 0))) :=
  ⟨⟨by decide, by decide,
    by
      intro inp hin
      rw [List.eq_of_mem_replicate hin]
      exact ⟨rfl, by decide⟩⟩,
   claim_C10_no_api_key _ baseState (by decide) (by decide)
     (by
       intro inp hin
       rw [List.eq_of_mem_replicate hin]
       exact ⟨rfl, by decide⟩)⟩

/-! ## Supervisor: `_check_thread_health` (backend.py lines 376-389) -/

/-- Embedding of `_check_thread_health`: restart (stop then start) when the worker thread
is dead, or when the time since the last successful read exceeds twice the
measurement interval.  The returned flag records whether the
`self.stop(); self.start()` path executed. -/
def checkThreadHealth (now : ℤ) (s : DMState) : DMState × Bool :=
  if ¬ s.threadAlive then
    (DataManager.start now (DataManager.stop s), true)
  else if MEASUREMENT_INTERVAL_SEC * 2 < now - s.lastSuccessfulRead then
    (DataManager.start now (DataManager.stop s), true)
  else (s, false)

/-- Claim C6: the periodic health check performs a full stop-then-start
exactly when the worker thread is not alive or the time since the last
successful cycle exceeds 2x the nominal sampling interval; the stop path
cancels the watchdog timer and closes all sensor connections, and the start
path resets the failure counter. -/
theorem claim_C6_health_check (now : ℤ) (s : DMState)
    (hrun : s.running = true) :
    ((checkThreadHealth now s).2 = true ↔
      (s.threadAlive = false ∨
        MEASUREMENT_INTERVAL_SEC * 2 < now - s.lastSuccessfulRead)) ∧
    ((checkThreadHealth now s).2 = true →
      (checkThreadHealth now s).1 = DataManager.start now (DataManager.stop s)) ∧
    ((checkThreadHealth now s).2 = false → (checkThreadHealth now s).1 = s) ∧
    (DataManager.stop s).watchdogActive = false ∧
    (DataManager.stop s).connections = [] ∧
    (DataManager.start now (DataManager.stop s)).consecutiveFailures = 0 := by
  refine ⟨?_, ?_, ?_, ?_, ?_, ?_⟩
  · unfold checkThreadHealth
    rcases ha : s.threadAlive <;>
      by_cases ht : MEASUREMENT_INTERVAL_SEC * 2 < now - s.lastSuccessfulRead <;>
      simp [ha, ht]
  · unfold checkThreadHealth
    rcases ha : s.threadAlive <;>
      by_cases ht : MEASUREMENT_INTERVAL_SEC * 2 < now - s.lastSuccessfulRead <;>
      simp [ha, ht]
  · unfold checkThreadHealth
    rcases ha : s.threadAlive <;>
      by_cases ht : MEASUREMENT_INTERVAL_SEC * 2 < now - s.lastSuccessfulRead <;>
      simp [ha, ht]
  · simp [DataManager.stop, hrun]
  · simp [DataManager.stop, hrun]
  · exact start_stop_consecutiveFailures now s

/-- Witness for C6: a stale state (no successful read for 5000 s > 2400 s)
triggers the restart. -/
theorem claim_C6_witness :
    baseState.running = true ∧
    (((checkThreadHealth 5000 baseState).2 = true ↔
      (baseState.threadAlive = false ∨
        MEASUREMENT_INTERVAL_SEC * 2 < 5000 - baseState.lastSuccessfulRead)) ∧
     ((checkThreadHealth 5000 baseState).2 = true →
      (checkThreadHealth 5000 baseState).1 =
        DataManager.start 5000 (DataManager.stop baseState)) ∧
     ((checkThreadHealth 5000 baseState).2 = false →
      (checkThreadHealth 5000 baseState).1 = baseState) ∧
     (DataManager.stop baseState).watchdogActive = false ∧
     (DataManager.stop baseState).connections = [] ∧
     (DataManager.start 5000 (DataManager.stop baseState)).consecutiveFailures
       = 0) :=
  ⟨by decide, claim_C6_health_check 5000 baseState (by decide)⟩

/-! ## Scheduler: `_background_loop` (backend.py lines 343-374) -/

/-- Embedding of `sleep_duration = max(MIN_SLEEP_SEC, MEASUREMENT_INTERVAL_SEC -
elapsed_time)` (backend.py line 362). -/
def sleepDuration (elapsed : ℚ) : ℚ :=
  max (MIN_SLEEP_SEC : ℚ) ((MEASUREMENT_INTERVAL_SEC : ℚ) - elapsed)

/-- Observable events of the scheduling loop. -/
inductive LoopEvent
  | runCycle
  | sleepFor (d : ℚ)
  deriving DecidableEq

/-- Event trace of `_background_loop`: one immediate data-point generation,
then, for each main-loop iteration (with measured elapsed cycle time `e`), a
data-point generation followed by a sleep of `sleepDuration e`. -/
def backgroundLoop (elapsedTimes : List ℚ) : List LoopEvent :=
  LoopEvent.runCycle ::
    elapsedTimes.foldr
      (fun e acc =>
        LoopEvent.runCycle :: LoopEvent.sleepFor (sleepDuration e) :: acc) []

lemma sleepFor_mem_foldr :
    ∀ (es : List ℚ) (d : ℚ),
      LoopEvent.sleepFor d ∈ es.foldr
        (fun e acc =>
          LoopEvent.runCycle :: LoopEvent.sleepFor (sleepDuration e) :: acc)
        [] →
      ∃ e ∈ es, d = sleepDuration e := by
  intro es
  induction es with
  | nil => intro d hd; simp at hd
  | cons e es ih =>
      intro d hd
      rcases List.mem_cons.mp hd with h | h
      · exact absurd h (by simp)
      · rcases List.mem_cons.mp h with h' | h'
        · exact ⟨e, List.mem_cons_self e es, by injection h'⟩
        · rcases ih d h' with ⟨e', he', hd'⟩
          exact ⟨e', List.mem_cons_of_mem e he', hd'⟩

/-- Claim C8: the scheduling loop runs the first sampling cycle immediately,
before any wait; and every sleep in the trace equals
`max(5, nominalInterval - elapsed)` for the iteration's elapsed cycle time,
hence is never negative and never below the 5-second floor, even when a
cycle overruns the 1200-second nominal interval. -/
theorem claim_C8_scheduler_floor (es : List ℚ) (d : ℚ)
    (hd : LoopEvent.sleepFor d ∈ backgroundLoop es) :
    (backgroundLoop es).head? = some LoopEvent.runCycle ∧
    (5 : ℚ) ≤ d ∧ (0 : ℚ) ≤ d ∧
    ∃ e ∈ es, d = max 5 (1200 - e) := by
  have hmem : ∃ e ∈ es, d = sleepDuration e := by
    rcases List.mem_cons.mp hd with h | h
    · exact absurd h (by simp)
    · exact sleepFor_mem_foldr es d h
  rcases hmem with ⟨e, he, hde⟩
  have hval : sleepDuration e = max 5 (1200 - e) := by
    unfold sleepDuration MIN_SLEEP_SEC MEASUREMENT_INTERVAL_SEC
      MEASUREMENT_INTERVAL_MIN
    norm_num
  have h5 : (5 : ℚ) ≤ d := by
    rw [hde, hval]
    exact le_max_left 5 (1200 - e)
  exact ⟨rfl, h5, le_trans (by norm_num) h5, ⟨e, he, by rw [hde, hval]⟩⟩

/-- Witness for C8: one overrunning iteration (elapsed 1250 s > 1200 s)
sleeps exactly the 5-second floor. -/
theorem claim_C8_witness :
    LoopEvent.sleepFor 5 ∈ backgroundLoop [1250] ∧
    ((backgroundLoop [1250]).head? = some LoopEvent.runCycle ∧
     (5 : ℚ) ≤ 5 ∧ (0 : ℚ) ≤ 5 ∧
     ∃ e ∈ ([1250] : List ℚ), (5 : ℚ) = max 5 (1200 - e)) :=
  have hsd : sleepDuration 1250 = 5 := by
    unfold sleepDuration MIN_SLEEP_SEC MEASUREMENT_INTERVAL_SEC
      MEASUREMENT_INTERVAL_MIN
    push_cast
    rw [max_eq_left (by norm_num)]
  have hmem : LoopEvent.sleepFor 5 ∈ backgroundLoop [1250] := by
    simp [backgroundLoop, hsd]
  ⟨hmem, claim_C8_scheduler_floor [1250] 5 hmem⟩

/-! ## PersistenceLog loader: `_load_historical_data` (backend.py lines 61-132) -/

/-- One CSV row as seen by the loader, after the per-field parses:
`timestamp` is the outcome of `pd.to_datetime` on that row's `Timestamp`
cell (`none` = unparseable, which makes `pd.to_datetime` raise for the whole
column), and each numeric field is the outcome of
`pd.to_numeric(errors='coerce')` (`none` = missing or non-numeric cell). -/
structure RawRecord where
  timestamp : Option ℤ
  sens1 : Option ℚ
  sens2 : Option ℚ
  sens3 : Option ℚ
  wroclaw : Option ℚ
  deriving DecidableEq

def SECONDS_PER_DAY : ℤ := 86400

/-- Conversion of one loaded CSV row into the dict appended to
`recent_data` (backend.py lines 105-113). -/
def rawToDataPoint (r : RawRecord) : Option DataPoint :=
  r.timestamp.map (fun ts =>
    ({ timestamp := ts, sens1 := r.sens1, sens2 := r.sens2,
       sens3 := r.sens3, wroclaw := r.wroclaw } : DataPoint))

/-- Embedding of `_load_historical_data`.  `csv = none` models a missing file or a
`read_csv` failure (the surrounding `except` leaves the history empty).  An
empty CSV yields no data; if any `Timestamp` cell is unparseable,
`pd.to_datetime` raises, the error handler returns, and the whole load
yields no data.  Otherwise rows older than the 3-day horizon are dropped and
the result is truncated to the most recent `MAX_DATA_LEN` rows. -/
def loadHistoricalData (now : ℤ) (csv : Option (List RawRecord)) :
    List DataPoint :=
  match csv with
  | none => []
  | some records =>
    if records.isEmpty then []
    else if records.any (fun r => r.timestamp.isNone) then []
    else
      let parsed := records.filterMap rawToDataPoint
      let recent := parsed.filter
        (fun p => decide (now - RETENTION_DAYS * SECONDS_PER_DAY ≤ p.timestamp))
      if MAX_DATA_LEN < recent.length then
        recent.drop (recent.length - MAX_DATA_LEN)
      else recent

/-- Counterexample to claim C7 as stated: a CSV holding one well-formed
record and one record with an unparseable timestamp loads as the empty
sequence — the malformed record is not skipped, it aborts the whole load
(the well-formed record alone would have loaded). -/
theorem claim_C7_counterexample :
    loadHistoricalData 1000000 (some
      [{ timestamp := some 999000, sens1 := some 1, sens2 := none,
         sens3 := none, wroclaw := none },
       { timestamp := none, sens1 := some 2, sens2 := none,
         sens3 := none, wroclaw := none }]) = [] ∧
    loadHistoricalData 1000000 (some
      [{ timestamp := some 999000, sens1 := some 1, sens2 := none,
         sens3 := none, wroclaw := none }]) =
      [{ timestamp := 999000, sens1 := some 1, sens2 := none,
         sens3 := none, wroclaw := none }] := by
  decide

/-- Claim C7 as amended: an absent/unreadable store loads as empty; a record
whose timestamp fails to parse aborts the whole load to an empty sequence
(logged, not a startup failure) instead of being skipped individually;
non-numeric sensor/weather cells are coerced to absent rather than failing;
loaded records respect the 3-day retention horizon; at most 500 records are
kept, and (when all timestamps parse) the kept records are a tail — the most
recent — of the horizon-filtered rows. -/
theorem claim_C7_load_historical (now : ℤ) (records : List RawRecord) :
    loadHistoricalData now none = [] ∧
    ((∃ r ∈ records, r.timestamp = none) →
      loadHistoricalData now (some records) = []) ∧
    (loadHistoricalData now (some records)).length ≤ MAX_DATA_LEN ∧
    (∀ p ∈ loadHistoricalData now (some records),
      now - RETENTION_DAYS * SECONDS_PER_DAY ≤ p.timestamp ∧
      ∃ r ∈ records, r.timestamp = some p.timestamp ∧ p.sens1 = r.sens1 ∧
        p.sens2 = r.sens2 ∧ p.sens3 = r.sens3 ∧ p.wroclaw = r.wroclaw) ∧
    (∃ n, loadHistoricalData now (some records) =
      ((records.filterMap rawToDataPoint).filter
        (fun p =>
          decide (now - RETENTION_DAYS * SECONDS_PER_DAY ≤ p.timestamp))).drop
        n) := by
  refine ⟨rfl, ?_, ?_, ?_, ?_⟩
  · rintro ⟨r, hr, ht⟩
    have hany : records.any (fun r => r.timestamp.isNone) = true :=
      List.any_eq_true.mpr ⟨r, hr, by simp [ht]⟩
    unfold loadHistoricalData
    by_cases hemp : records.isEmpty <;> simp [hemp, hany]
  · unfold loadHistoricalData
    by_cases hemp : records.isEmpty
    · simp [hemp]
    · by_cases hany : records.any (fun r => r.timestamp.isNone) = true
      · simp [hemp, hany]
      · simp only [hemp, hany, if_false, Bool.false_eq_true]
        split
        · rename_i hlt
          simp only [List.length_drop]
          omega
        · rename_i hlt
          omega
  · intro p hp
    have hp' : p ∈ (records.filterMap rawToDataPoint).filter
        (fun p =>
          decide (now - RETENTION_DAYS * SECONDS_PER_DAY ≤ p.timestamp)) := by
      unfold loadHistoricalData at hp
      by_cases hemp : records.isEmpty
      · simp [hemp] at hp
      · by_cases hany : records.any (fun r => r.timestamp.isNone) = true
        · simp [hemp, hany] at hp
        · simp only [hemp, hany, if_false, Bool.false_eq_true] at hp
          split at hp
          · exact List.drop_subset _ _ hp
          · exact hp
    have hfil := List.mem_filter.mp hp'
    have hhor : now - RETENTION_DAYS * SECONDS_PER_DAY ≤ p.timestamp := by
      simpa using hfil.2
    rcases List.mem_filterMap.mp hfil.1 with ⟨r, hr, hmap⟩
    unfold rawToDataPoint at hmap
    rcases Option.map_eq_some'.mp hmap with ⟨ts, hts, hmk⟩
    refine ⟨hhor, r, hr, ?_, ?_, ?_, ?_, ?_⟩ <;> rw [← hmk] <;> simp [hts]
  · unfold loadHistoricalData
    by_cases hemp : records.isEmpty
    · refine ⟨0, ?_⟩
      rw [List.isEmpty_iff.mp hemp]
      simp
    · by_cases hany : records.any (fun r => r.timestamp.isNone) = true
      · rcases List.any_eq_true.mp hany with ⟨r, hr, ht⟩
        refine ⟨((records.filterMap rawToDataPoint).filter
          (fun p =>
            decide (now - RETENTION_DAYS * SECONDS_PER_DAY ≤ p.timestamp))).length,
          ?_⟩
        simp [hemp, hany, List.drop_length]
      · simp only [hemp, hany, if_false, Bool.false_eq_true]
        split
        · exact ⟨_, rfl⟩
        · exact ⟨0, by simp⟩

/-- Witness for C7 at a concrete CSV with one in-horizon record, one
out-of-horizon record and one record with a non-numeric sensor cell. -/
theorem claim_C7_witness :
    (∃ r ∈ ([{ timestamp := some 999000, sens1 := some 1, sens2 := none,
               sens3 := none, wroclaw := none },
             { timestamp := some 1000, sens1 := some 2, sens2 := some 3,
               sens3 := none, wroclaw := none },
             { timestamp := some 999500, sens1 := none, sens2 := some 4,
               sens3 := none, wroclaw := some 6 }] : List RawRecord),
        r.timestamp = none) = False ∧
    (loadHistoricalData 1000000 none = [] ∧
     ((∃ r ∈ ([{ timestamp := some 999000, sens1 := some 1, sens2 := none,
                 sens3 := none, wroclaw := none },
               { timestamp := some 1000, sens1 := some 2, sens2 := some 3,
                 sens3 := none, wroclaw := none },
               { timestamp := some 999500, sens1 := none, sens2 := some 4,
                 sens3 := none, wroclaw := some 6 }] : List RawRecord),
          r.timestamp = none) →
       loadHistoricalData 1000000 (some
         [{ timestamp := some 999000, sens1 := some 1, sens2 := none,
            sens3 := none, wroclaw := none },
          { timestamp := some 1000, sens1 := some 2, sens2 := some 3,
            sens3 := none, wroclaw := none },
          { timestamp := some 999500, sens1 := none, sens2 := some 4,
            sens3 := none, wroclaw := some 6 }]) = []) ∧
     (loadHistoricalData 1000000 (some
         [{ timestamp := some 999000, sens1 := some 1, sens2 := none,
            sens3 := none, wroclaw := none },
          { timestamp := some 1000, sens1 := some 2, sens2 := some 3,
            sens3 := none, wroclaw := none },
          { timestamp := some 999500, sens1 := none, sens2 := some 4,
            sens3 := none, wroclaw := some 6 }])).length ≤ MAX_DATA_LEN ∧
     (∀ p ∈ loadHistoricalData 1000000 (some
         [{ timestamp := some 999000, sens1 := some 1, sens2 := none,
            sens3 := none, wroclaw := none },
          { timestamp := some 1000, sens1 := some 2, sens2 := some 3,
            sens3 := none, wroclaw := none },
          { timestamp := some 999500, sens1 := none, sens2 := some 4,
            sens3 := none, wroclaw := some 6 }]),
       1000000 - RETENTION_DAYS * SECONDS_PER_DAY ≤ p.timestamp ∧
       ∃ r ∈ ([{ timestamp := some 999000, sens1 := some 1, sens2 := none,
                 sens3 := none, wroclaw := none },
               { timestamp := some 1000, sens1 := some 2, sens2 := some 3,
                 sens3 := none, wroclaw := none },
               { timestamp := some 999500, sens1 := none, sens2 := some 4,
                 sens3 := none, wroclaw := some 6 }] : List RawRecord),
         r.timestamp = some p.timestamp ∧ p.sens1 = r.sens1 ∧
           p.sens2 = r.sens2 ∧ p.sens3 = r.sens3 ∧ p.wroclaw = r.wroclaw) ∧
     (∃ n, loadHistoricalData 1000000 (some
         [{ timestamp := some 999000, sens1 := some 1, sens2 := none,
            sens3 := none, wroclaw := none },
          { timestamp := some 1000, sens1 := some 2, sens2 := some 3,
            sens3 := none, wroclaw := none },
          { timestamp := some 999500, sens1 := none, sens2 := some 4,
            sens3 := none, wroclaw := some 6 }]) =
       ((([{ timestamp := some 999000, sens1 := some 1, sens2 := none,
             sens3 := none, wroclaw := none },
           { timestamp := some 1000, sens1 := some 2, sens2 := some 3,
             sens3 := none, wroclaw := none },
           { timestamp := some 999500, sens1 := none, sens2 := some 4,
             sens3 := none, wroclaw := some 6 }] : List RawRecord).filterMap
             rawToDataPoint).filter
           (fun p =>
             decide (1000000 - RETENTION_DAYS * SECONDS_PER_DAY ≤ p.timestamp))).drop
         n)) :=
  ⟨by decide,
   claim_C7_load_historical 1000000
     [{ timestamp := some 999000, sens1 := some 1, sens2 := none,
        sens3 := none, wroclaw := none },
      { timestamp := some 1000, sens1 := some 2, sens2 := some 3,
        sens3 := none, wroclaw := none },
      { timestamp := some 999500, sens1 := none, sens2 := some 4,
        sens3 := none, wroclaw := some 6 }]⟩

end FlatAirCooler
